import Mathlib

/-!
Verification of the jweather location-search widget.

The repository holds two JavaScript implementations of the same widget:
the class-based `src/elements/scripts/location-search.js` (embedded below in
namespace `LS`) and a standalone variant (first unnamed source file, embedded
in namespace `P000`). Program strings are modelled as `List Char` (one entry
per code point; the data involved is plain BMP text, where JS UTF-16 code
units and code points coincide). JS numbers are modelled as `Rat`, with the
JS `null`/missing distinction carried by `Option`; `NaN` results of
`parseFloat` are modelled as `none`. Fallible JS code (code that can throw)
returns `Except`.
-/

/-- Models the JS whitespace test used by `String.prototype.trim` for the
ASCII whitespace characters occurring in this development. -/
def isJsSpace (c : Char) : Bool :=
  c = ' ' || c = '\t' || c = '\n' || c = '\r'

/-- Models `String.prototype.trim`: strips leading and trailing whitespace. -/
def trimChars (s : List Char) : List Char :=
  (((s.dropWhile isJsSpace).reverse).dropWhile isJsSpace).reverse

/-- Models `String.prototype.toLowerCase` on the ASCII range and on the
Latin-1 letters exercised here; other characters are returned unchanged. -/
def jsToLower (c : Char) : Char :=
  if 'A' ≤ c ∧ c ≤ 'Z' then Char.ofNat (c.toNat + 32)
  else if c = 'Ñ' then 'ñ'
  else if c = 'É' then 'é'
  else c

/-- Models Unicode NFD decomposition (`String.prototype.normalize`
with argument NFD) for the characters exercised here: ASCII characters are
their own decomposition; the precomposed Latin letters used in the tests
decompose into a base letter followed by a combining mark. -/
def nfdChar (c : Char) : List Char :=
  if c = 'ñ' then ['n', Char.ofNat 0x303]
  else if c = 'é' then ['e', Char.ofNat 0x301]
  else [c]

/-- Models `String.prototype.indexOf` restricted to a needle list: returns
the first index at which `needle` occurs inside the list, or `none`
(JS returns -1). The empty needle occurs at index 0, as in JS. -/
def idxOf? (needle : List Char) : List Char → Option ℕ
  | [] => if needle.isEmpty then some 0 else none
  | c :: rest =>
    if needle.isPrefixOf (c :: rest) then some 0
    else (idxOf? needle rest).map (· + 1)

/-- Models `String.prototype.includes`. -/
def includesL (hay needle : List Char) : Bool :=
  (idxOf? needle hay).isSome

/-- Models `String.prototype.startsWith`. -/
def startsWithL (hay needle : List Char) : Bool :=
  needle.isPrefixOf hay

/-- Models `String.prototype.split` with a single-character separator:
`"".split(sep)` is `[""]`, and a trailing separator yields a trailing
empty field, as in JS. -/
def splitOnChar (sep : Char) : List Char → List (List Char)
  | [] => [[]]
  | c :: rest =>
    match splitOnChar sep rest with
    | [] => if c = sep then [[], []] else [[c]]
    | h :: t => if c = sep then [] :: h :: t else (c :: h) :: t

/-- Decimal value of a list of ASCII digits. -/
def digitsToNat (ds : List Char) : ℕ :=
  ds.foldl (fun a c => 10 * a + (c.toNat - 48)) 0

/-- Models `parseFloat` on the plain decimal numerals appearing in the
coordinate dataset: optional leading whitespace, optional sign, digits with
an optional fractional part. A `none` result models JS `NaN` (no parsable
numeric prefix). Exponent forms and `Infinity` are not exercised by any
claim and are not modelled. -/
def jsParseFloat (s : List Char) : Option ℚ :=
  let s1 := s.dropWhile isJsSpace
  let signAndRest : Bool × List Char :=
    match s1 with
    | '-' :: t => (true, t)
    | '+' :: t => (false, t)
    | _ => (false, s1)
  let s2 := signAndRest.2
  let ip := s2.takeWhile Char.isDigit
  let s3 := s2.dropWhile Char.isDigit
  let fp :=
    match s3 with
    | '.' :: t => t.takeWhile Char.isDigit
    | _ => []
  if ip.isEmpty && fp.isEmpty then none
  else
    let mag : ℚ := (digitsToNat ip : ℚ) + (digitsToNat fp : ℚ) / (10 : ℚ) ^ fp.length
    some (if signAndRest.1 then -mag else mag)

/-- Decimal digit rendering of a natural number (fuel-based so that it
reduces in the kernel); fuel is always sufficient at `n + 1`. -/
def natDigitsAux : ℕ → ℕ → List Char
  | 0, _ => []
  | fuel + 1, n =>
    if n < 10 then [Char.ofNat (48 + n)]
    else natDigitsAux fuel (n / 10) ++ [Char.ofNat (48 + n % 10)]

/-- Decimal rendering of a natural number, as JS template interpolation
renders an integral number. -/
def natStr (n : ℕ) : String := ⟨natDigitsAux (n + 1) n⟩

/-- Decimal rendering of an integer, as JS template interpolation renders
an integral number. -/
def intStr (i : ℤ) : String :=
  if i < 0 then "-" ++ natStr i.natAbs else natStr i.toNat

/-- Models `Math.round`: round half toward positive infinity. -/
def jsRound (q : ℚ) : ℤ := ⌊q + 1/2⌋

/-- Models `String.prototype.slice(start, end)` for non-negative indices
(indices past the end clamp, exactly as in JS). -/
def jsSlice (t : List Char) (a b : ℕ) : List Char := (t.take b).drop a

namespace P000

/-- Models `normalize` from the standalone variant, faithfully including its
regular expression `[\0-ͯ]`, whose character class ranges from U+0000
to U+036F and therefore deletes every character up to and including U+036F
(all of ASCII included), not merely the combining marks U+0300 to U+036F. -/
def normalize (s : List Char) : List Char :=
  (((s.map jsToLower).map nfdChar).flatten).filter (fun c => decide (0x36F < c.toNat))

/-- Opening tag inserted by `highlightMatch`. -/
def spanOpen : List Char := "<span class=\"bg-yellow-200\">".toList

/-- Closing tag inserted by `highlightMatch`. -/
def spanClose : List Char := "</span>".toList

/-- Models `highlightMatch(text, query)` from the standalone variant: finds
the normalized query inside the normalized text and splices highlight tags
into the original text using that index together with the raw query length. -/
def highlightMatch (text query : List Char) : List Char :=
  let nQuery := normalize query
  let nText := normalize text
  match idxOf? nQuery nText with
  | none => text
  | some idx =>
    jsSlice text 0 idx ++ spanOpen ++ jsSlice text idx (idx + query.length) ++
      spanClose ++ text.drop (idx + query.length)

/-- Location record of the standalone variant: all five fields come out of
the Papa-parsed CSV as strings (the derived display and search fields are
not needed by any claim and are omitted). -/
structure Location where
  zip : List Char
  city : List Char
  state_id : List Char
  lat : List Char
  lng : List Char
deriving DecidableEq

/-- Raw row as delivered by the external CSV parser with a header row:
each named column is either a string or absent. -/
structure PapaRow where
  zip : Option (List Char)
  city : Option (List Char)
  state_id : Option (List Char)
  lat : Option (List Char)
  lng : Option (List Char)
deriving DecidableEq

/-- JS truthiness of a string-or-undefined field: present and non-empty. -/
def truthyStr : Option (List Char) → Bool
  | some s => !s.isEmpty
  | none => false

/-- Models `loadLocations` of the standalone variant: keep the rows whose
five named fields are all truthy (non-empty strings). The latitude and
longitude are kept as the strings the parser produced; nothing checks that
they are numeric. -/
def loadLocations (rows : List PapaRow) : List Location :=
  (rows.filter (fun r =>
      truthyStr r.zip && truthyStr r.city && truthyStr r.state_id &&
      truthyStr r.lat && truthyStr r.lng)).map
    (fun r =>
      { zip := r.zip.getD [], city := r.city.getD [],
        state_id := r.state_id.getD [], lat := r.lat.getD [],
        lng := r.lng.getD [] })

/-- Matching test of the standalone `showSuggestions` against one record,
for an already-normalized query `q`. -/
def matchesLoc (q : List Char) (loc : Location) : Bool :=
  startsWithL (normalize loc.zip) q || includesL (normalize loc.city) q ||
    startsWithL (normalize loc.state_id) q

/-- Models `showSuggestions` of the standalone variant as the list of
suggestions it renders: inputs of length below 2 produce nothing (the raw
input is not trimmed first), otherwise the records matching the normalized
query are taken in dataset order, capped at 15. -/
def showSuggestions (query : List Char) (locs : List Location) : List Location :=
  if query.length < 2 then []
  else (locs.filter (matchesLoc (normalize query))).take 15

end P000

/-- Normalization as the specification words it: case folding plus removal
of the combining diacritical marks U+0300 to U+036F (stated for comparison
with the `P000.normalize` the code actually implements). -/
def specNormalize (s : List Char) : List Char :=
  (((s.map jsToLower).map nfdChar).flatten).filter
    (fun c => decide (c.toNat < 0x300) || decide (0x36F < c.toNat))

/-- Matching rule as the specification words it: normalized zip prefix, or
normalized city substring, or normalized state prefix. -/
def specMatches (query : List Char) (loc : P000.Location) : Bool :=
  let nq := specNormalize query
  startsWithL (specNormalize loc.zip) nq ||
    includesL (specNormalize loc.city) nq ||
    startsWithL (specNormalize loc.state_id) nq

namespace LS

/-- Location record of the class-based implementation: latitude and
longitude are parsed with `parseFloat` at load time (`none` models `NaN`);
the derived display text is not needed by any claim and is omitted. -/
structure Location where
  zip : List Char
  lat : Option ℚ
  lng : Option ℚ
  city : List Char
  state : List Char
deriving DecidableEq

/-- Models the row-mapping arrow function inside `loadLocations`: split the
line on commas and build the record. Reading column 3 (`values[3].trim()`)
throws a TypeError when the row has fewer than four columns, which this
embedding surfaces as `Except.error`; column 4 is guarded in the source
(`values[4] ? values[4].trim() : 'Unknown'`, where the guard is JS
truthiness, so an empty string also falls back). -/
def parseRow (line : List Char) : Except Unit Location :=
  let values := splitOnChar ',' line
  match values.get? 3 with
  | none => Except.error ()
  | some cityRaw =>
    Except.ok
      { zip := trimChars ((values.get? 0).getD [])
        lat := match values.get? 1 with
          | none => none
          | some v => jsParseFloat v
        lng := match values.get? 2 with
          | none => none
          | some v => jsParseFloat v
        city := trimChars cityRaw
        state := match values.get? 4 with
          | some s => if s.isEmpty then "Unknown".toList else trimChars s
          | none => "Unknown".toList }

/-- Models `Array.prototype.map` over a callback that can throw: the first
throwing element aborts the whole map with that exception. -/
def mapExcept (f : α → Except Unit β) : List α → Except Unit (List β)
  | [] => Except.ok []
  | a :: t =>
    match f a with
    | Except.error e => Except.error e
    | Except.ok b =>
      match mapExcept f t with
      | Except.error e => Except.error e
      | Except.ok bs => Except.ok (b :: bs)

/-- Models `loadLocations` of the class-based implementation: trim the CSV
text, split into lines, drop the header, map every line through `parseRow`
and keep the rows whose coordinates are not `NaN`. The whole body runs in a
try/catch, and `this.locations` starts as the empty list, so an exception
from any row leaves the empty list in place. -/
def loadLocations (csv : List Char) : List Location :=
  let lines := splitOnChar '\n' (trimChars csv)
  match mapExcept parseRow (lines.drop 1) with
  | Except.error _ => []
  | Except.ok rows => rows.filter (fun r => r.lat.isSome && r.lng.isSome)

/-- Matching test of the class-based `showSuggestions` against one record:
records with a falsy city, state or zip are rejected; otherwise city and
state match case-insensitively by substring, and zip matches by substring
against the raw (not lowercased) query. -/
def matchesLoc (query : List Char) (loc : Location) : Bool :=
  if loc.city.isEmpty || loc.state.isEmpty || loc.zip.isEmpty then false
  else
    includesL (loc.city.map jsToLower) (query.map jsToLower) ||
    includesL (loc.state.map jsToLower) (query.map jsToLower) ||
    includesL loc.zip query

/-- Models `showSuggestions` of the class-based implementation: the records
matching the query in dataset order, capped at 10. -/
def showSuggestions (query : List Char) (locs : List Location) : List Location :=
  (locs.filter (matchesLoc query)).take 10

/-- Models `handleInput`: the raw input value is trimmed, inputs whose
trimmed length is below 2 clear the suggestions, and anything longer is
passed to `showSuggestions`. -/
def handleInput (raw : List Char) (locs : List Location) : List Location :=
  let query := trimChars raw
  if query.length < 2 then [] else showSuggestions query locs

/-- Models `celsiusToFahrenheit`. -/
def celsiusToFahrenheit (celsius : ℚ) : ℚ := celsius * 9 / 5 + 32

/-- Models `mpsToMph`. -/
def mpsToMph (mps : ℚ) : ℚ := mps * 2.237

/-- The sixteen compass labels of `degreesToDirection`, in source order. -/
def directions : List String :=
  ["N", "NNE", "NE", "ENE", "E", "ESE", "SE", "SSE",
   "S", "SSW", "SW", "WSW", "W", "WNW", "NW", "NNW"]

/-- Models `degreesToDirection`: `directions[Math.round(degrees / 22.5) % 16]`.
The JS remainder keeps the sign of the dividend (modelled by `Int.tmod`),
and a negative index reads `undefined` out of the array. -/
def degreesToDirection (degrees : ℚ) : String :=
  let i := (jsRound (degrees / 22.5)).tmod 16
  if 0 ≤ i then directions.getD i.toNat "undefined" else "undefined"

/-- Raw observation properties as read by `updateWeatherUI`: each declared
field object is either absent from the response (outer `none`) or present,
and a present numeric field carries either `null` (inner `none`) or a
number. -/
structure RawObservation where
  temperature : Option (Option ℚ)
  textDescription : Option (List Char)
  relativeHumidity : Option (Option ℚ)
  windSpeed : Option (Option ℚ)
  windDirection : Option (Option ℚ)

/-- Temperature text written by `updateWeatherUI`: guarded by the JS
truthiness of `current.temperature && current.temperature.value`, so a
missing field object, a `null` value and a zero value all leave the
previously displayed text in place. -/
def tempText (prev : String) (obs : RawObservation) : String :=
  match obs.temperature with
  | some (some v) =>
    if v ≠ 0 then intStr (jsRound (celsiusToFahrenheit v)) ++ "°F" else prev
  | _ => prev

/-- Condition text written by `updateWeatherUI`: guarded by the truthiness
of `current.textDescription`, so a missing value or the empty string leaves
the previously displayed text in place. -/
def condText (prev : String) (obs : RawObservation) : String :=
  match obs.textDescription with
  | some s => if !s.isEmpty then String.mk s else prev
  | none => prev

/-- Humidity text of `updateWeatherUI`: only the presence of the
`relativeHumidity` object is tested, so a present object with a `null`
value is coerced by `Math.round` to 0. -/
def humidityText (obs : RawObservation) : String :=
  match obs.relativeHumidity with
  | some v => intStr (jsRound (v.getD 0)) ++ "%"
  | none => "N/A"

/-- Wind speed text of `updateWeatherUI`: only the presence of the
`windSpeed` object is tested, so a present object with a `null` value is
coerced to 0 before conversion. -/
def windSpeedText (obs : RawObservation) : String :=
  match obs.windSpeed with
  | some v => intStr (jsRound (mpsToMph (v.getD 0))) ++ " mph"
  | none => "N/A"

/-- Wind direction text of `updateWeatherUI`: a missing `windDirection`
object degrades to the empty string, and a present object with a `null`
value is coerced to 0 degrees, which renders as the compass label N. -/
def windDirText (obs : RawObservation) : String :=
  match obs.windDirection with
  | some v => degreesToDirection (v.getD 0)
  | none => ""

/-- The current-conditions section of the page, as text contents. -/
structure CurrentConditionsUI where
  temp : String
  cond : String
  humidityLine : String
  windLine : String
deriving DecidableEq

/-- Models the current-conditions part of `updateWeatherUI` as a transformer
of the displayed texts (the previous contents survive wherever the source
skips the DOM write). -/
def updateCurrentConditions (prev : CurrentConditionsUI) (obs : RawObservation) :
    CurrentConditionsUI :=
  { temp := tempText prev.temp obs
    cond := condText prev.cond obs
    humidityLine := "Humidity: " ++ humidityText obs
    windLine := "Wind: " ++ windSpeedText obs ++ " " ++ windDirText obs }

end LS

namespace LS

/-- Properties of one alert feature (`features[i].properties`). -/
structure AlertProperties where
  event : String
  headline : String
deriving DecidableEq

/-- One element of the alerts `features` array. -/
structure AlertFeature where
  properties : AlertProperties
deriving DecidableEq

/-- Body of the active-alerts response. -/
structure AlertsData where
  features : List AlertFeature
deriving DecidableEq

/-- Inner HTML written by `updateAlertsUI` when it shows an alert. -/
def alertHtml (event headline : String) : String :=
  "<span class=\"material-symbols-outlined text-red-500 text-3xl\">warning</span>" ++
  "<div><p class=\"font-semibold text-gray-800\">" ++ event ++
  "</p><p class=\"text-gray-500 text-sm\">" ++ headline ++ "</p></div>"

/-- Inner HTML written by `updateAlertsUI` when there is nothing to show. -/
def noAlertsHtml : String :=
  "<span class=\"material-symbols-outlined text-green-500 text-3xl\">check_circle</span>" ++
  "<div><p class=\"font-semibold text-gray-800\">No active weather alerts" ++
  "</p><p class=\"text-gray-500 text-sm\">All clear for now. Stay tuned for updates.</p></div>"

/-- Models `updateAlertsUI`: when the alerts data is present and its feature
list is non-empty, the alert content shows the event and headline of
`features[0]` only; otherwise it shows the no-alerts message. -/
def updateAlertsUI (alertsData : Option AlertsData) : String :=
  match alertsData with
  | some d =>
    match d.features with
    | f :: _ => alertHtml f.properties.event f.properties.headline
    | [] => noAlertsHtml
  | none => noAlertsHtml

/-- Point-metadata payload of stage 1: the two routing references used by
the stage-2 requests. -/
structure PointData where
  observationStations : String
  forecast : String
deriving DecidableEq

/-- Stations payload: the ordered list of station identifiers. -/
structure StationsData where
  features : List String
deriving DecidableEq

/-- One run of the network, as `fetchWeatherData` consumes it: each request
either settles with a parsed body or rejects (transport failure or a body
that does not parse), which `Promise` surfaces as a rejection. -/
structure NwsNet where
  point : Except String PointData
  stations : Except String StationsData
  latestObservation : String → Except String String
  forecastResp : Except String String
  alertsResp : Except String String

/-- Models the dependent two-hop observation branch inside the first
`Promise.all`: fetch the station list, then the latest observation of
`stations.features[0]`; an empty station list makes the member access on
`features[0]` throw, rejecting the branch. -/
def observationBranch (net : NwsNet) : Except String String :=
  match net.stations with
  | Except.error e => Except.error e
  | Except.ok st =>
    match st.features with
    | [] => Except.error "TypeError: undefined station"
    | sid :: _ => net.latestObservation sid

/-- Outcome of one `fetchWeatherData` run: either all three payloads reach
`updateWeatherUI` together, or the catch block shows one error message. -/
inductive FetchOutcome where
  | success (current forecast alerts : String)
  | failed (message : String)
deriving DecidableEq

/-- The single message shown by the catch block of `fetchWeatherData`. -/
def errorMessage : String := "Error loading weather data. Please try again."

/-- Models `fetchWeatherData`: stage 1 fetches the point metadata, then the
two `Promise.all` calls run the three stage-2 branches; any rejection
anywhere lands in the catch block, which reports `errorMessage`. No partial
snapshot exists: either every branch settled successfully and all three
payloads are handed over, or the whole run fails. -/
def fetchWeatherData (net : NwsNet) : FetchOutcome :=
  match net.point with
  | Except.error _ => FetchOutcome.failed errorMessage
  | Except.ok _ =>
    match observationBranch net, net.forecastResp, net.alertsResp with
    | Except.ok c, Except.ok f, Except.ok a => FetchOutcome.success c f a
    | Except.error _, _, _ => FetchOutcome.failed errorMessage
    | _, Except.error _, _ => FetchOutcome.failed errorMessage
    | _, _, Except.error _ => FetchOutcome.failed errorMessage

end LS

/-- Event alphabet of the selection/fetch interleaving: `select g` is the
user committing to the location of generation `g` (`selectLocation`, which
immediately starts the fetch for `g`), and `settle g` is the fetch started
for generation `g` reaching its `updateWeatherUI` call. -/
inductive UiEvent where
  | select (g : ℕ)
  | settle (g : ℕ)
deriving DecidableEq

/-- Shared weather-display state: which selection is the most recent one,
and whose data the weather panel currently shows. -/
structure UiState where
  lastSelection : Option ℕ
  displayed : Option ℕ
deriving DecidableEq

/-- One step of the interleaving, as the source behaves: `selectLocation`
records the new selection, and a settling fetch calls `updateWeatherUI`
unconditionally — `fetchWeatherData` carries no generation token and never
compares its generation against the most recent selection before writing. -/
def stepUi (s : UiState) : UiEvent → UiState
  | UiEvent.select g => { s with lastSelection := some g }
  | UiEvent.settle g => { s with displayed := some g }

/-- Run a whole event trace from the initial (nothing selected, nothing
displayed) state. -/
def runUi (t : List UiEvent) : UiState :=
  t.foldl stepUi { lastSelection := none, displayed := none }

/-- The generation of the last fetch that settled in the trace, if any. -/
def lastSettled (t : List UiEvent) : Option ℕ :=
  t.foldl
    (fun acc e =>
      match e with
      | UiEvent.settle g => some g
      | UiEvent.select _ => acc)
    none

/-- Concrete record used by several tests: Boston, MA 02101. -/
def bostonP : P000.Location :=
  { zip := "02101".toList, city := "Boston".toList, state_id := "MA".toList,
    lat := "42.36".toList, lng := "-71.05".toList }

/-- The same record in the shape of the class-based implementation (the
coordinates are irrelevant to the matching claims). -/
def bostonC : LS.Location :=
  { zip := "02101".toList, lat := none, lng := none,
    city := "Boston".toList, state := "MA".toList }

/-- Splicing a window back around its slice complement reassembles the
original list: this is what keeps `highlightMatch` lossless for any index
and any window width, the clamping of `slice` included. -/
theorem jsSlice_partition (t : List Char) (i q : ℕ) :
    jsSlice t 0 i ++ (jsSlice t i (i + q) ++ t.drop (i + q)) = t := by
  simp only [jsSlice, List.drop_zero]
  rw [List.drop_take]
  have h1 : i + q - i = q := by omega
  rw [h1, ← List.drop_drop q i t, List.take_append_drop, List.take_append_drop]

/-- A natural number below 16 is its own JS remainder modulo 16. -/
theorem tmod_sixteen (k : ℕ) (h : k < 16) : ((k : ℤ)).tmod 16 = k := by
  rw [Int.tmod_eq_emod (by positivity) (by norm_num)]
  omega

/-- A throwing element anywhere in the list aborts the whole map. -/
theorem mapExcept_error_of_mem {f : α → Except Unit β} {l : List α} {a : α}
    (hmem : a ∈ l) (herr : f a = Except.error ()) :
    LS.mapExcept f l = Except.error () := by
  induction l with
  | nil => cases hmem
  | cons x t ih =>
    rcases List.mem_cons.mp hmem with h | h
    · subst h
      simp [LS.mapExcept, herr]
    · unfold LS.mapExcept
      cases hfx : f x with
      | error e => cases e; rfl
      | ok b => rw [ih h]

/-- Claim C3 (code bug in the standalone matcher): the claim states the
zip-prefix / city-substring / state-prefix rule under case and diacritic
folding, which is what the source comment announces, but the regular
expression of `normalize` deletes every character up to U+036F, so every
normalized string of plain text is empty and every record matches every
query of length at least 2. Concretely, the query `zz` returns the Boston
record even though the rule worded by the spec rejects it, because
`normalize` maps `Boston` (and `zz`) to the empty string. -/
theorem c3_matching_rule_code_bug :
    P000.showSuggestions "zz".toList [bostonP] = [bostonP] ∧
    specMatches "zz".toList bostonP = false ∧
    P000.normalize "Boston".toList = [] :=
  ⟨by decide, by decide, by decide⟩

/-- Claim C4 (confirmed): `highlightMatch` is total (the embedding is a
total function, as the source never indexes out of bounds thanks to the
clamping of `slice`), and its output is the original text with the two
highlight tags spliced in: outside the highlighted window every original
character survives unchanged and in order, whatever length change
normalization causes, since the three slices partition the text. -/
theorem c4_highlight_preserves_text (text query : List Char) :
    (P000.highlightMatch text query = text ∧
      idxOf? (P000.normalize query) (P000.normalize text) = none) ∨
    ∃ i, idxOf? (P000.normalize query) (P000.normalize text) = some i ∧
      P000.highlightMatch text query =
        jsSlice text 0 i ++ P000.spanOpen ++ jsSlice text i (i + query.length) ++
          P000.spanClose ++ text.drop (i + query.length) ∧
      jsSlice text 0 i ++ (jsSlice text i (i + query.length) ++
          text.drop (i + query.length)) = text := by
  cases h : idxOf? (P000.normalize query) (P000.normalize text) with
  | none =>
    left
    exact ⟨by simp [P000.highlightMatch, h], rfl⟩
  | some i =>
    right
    exact ⟨i, rfl, by simp [P000.highlightMatch, h], jsSlice_partition text i query.length⟩

/-- Claim C7 (counterexample): the standalone variant tests the length of
the raw, untrimmed input, so the input consisting of a space followed by
the letter A has trimmed length 1 yet is matched against the index and
returns the Boston record. -/
theorem c7_short_query_counterexample :
    (trimChars " A".toList).length < 2 ∧
    P000.showSuggestions " A".toList [bostonP] = [bostonP] :=
  ⟨by decide, by decide⟩

/-- Claim C7 (amended): the class-based pipeline trims the input before the
length test, so any input whose trimmed length is below 2 yields the empty
suggestion list with no matching; the standalone variant applies the length
test to the untrimmed input, so only inputs whose raw length is below 2 are
guaranteed to yield nothing. -/
theorem c7_short_query_amended (raw : List Char)
    (lc : List LS.Location) (lp : List P000.Location) :
    ((trimChars raw).length < 2 → LS.handleInput raw lc = []) ∧
    (raw.length < 2 → P000.showSuggestions raw lp = []) := by
  constructor
  · intro h
    simp [LS.handleInput, h]
  · intro h
    simp [P000.showSuggestions, h]

/-- Witness for C7 at the one-letter input `a`. -/
theorem c7_short_query_witness :
    ((trimChars "a".toList).length < 2 ∧ LS.handleInput "a".toList [bostonC] = []) ∧
    ("a".toList.length < 2 ∧ P000.showSuggestions "a".toList [bostonP] = []) :=
  ⟨⟨by decide, (c7_short_query_amended "a".toList [bostonC] [bostonP]).1 (by decide)⟩,
   ⟨by decide, (c7_short_query_amended "a".toList [bostonC] [bostonP]).2 (by decide)⟩⟩

/-- Claim C8 (confirmed): both implementations cap their suggestion lists at
their fixed bound (10 for the class-based one, 15 for the standalone one,
both inside the 10 to 15 range the claim names), and both produce a sublist
of the dataset: the matches keep their original relative order, with no
reordering or ranking. -/
theorem c8_cap_and_order (q : List Char)
    (lc : List LS.Location) (lp : List P000.Location) :
    (LS.showSuggestions q lc).length ≤ 10 ∧
    (LS.showSuggestions q lc).Sublist lc ∧
    (P000.showSuggestions q lp).length ≤ 15 ∧
    (P000.showSuggestions q lp).Sublist lp := by
  refine ⟨?_, ?_, ?_, ?_⟩
  · simp [LS.showSuggestions, List.length_take]
  · exact List.Sublist.trans (List.take_sublist _ _) (List.filter_sublist _)
  · unfold P000.showSuggestions
    split
    · simp
    · simp [List.length_take]
  · unfold P000.showSuggestions
    split
    · simp
    · exact List.Sublist.trans (List.take_sublist _ _) (List.filter_sublist _)

/-- A dataset whose trailing row is partial (only two of five columns). -/
def csvPartialRow : List Char :=
  "zip,lat,lng,city,state_id\n02101,42.36,-71.05,Boston,MA\n12345,40.7".toList

/-- The same dataset without the trailing partial row. -/
def csvGoodOnly : List Char :=
  "zip,lat,lng,city,state_id\n02101,42.36,-71.05,Boston,MA".toList

/-- A dataset with one good row and one full-width row whose coordinates are
not numeric. -/
def csvGoodAndMalformed : List Char :=
  "zip,lat,lng,city,state_id\n02101,42.36,-71.05,Boston,MA\nXXXXX,abc,def,Badtown,ZZ".toList

/-- A parsed CSV row whose latitude field is a non-numeric, non-empty
string. -/
def papaRowBadLat : P000.PapaRow :=
  { zip := some "10001".toList, city := some "Badville".toList,
    state_id := some "NY".toList, lat := some "abc".toList,
    lng := some "1.0".toList }

/-- Claim C9 (counterexample): a trailing partial row is not merely
excluded — reading its missing city column throws inside the row mapper,
the surrounding catch swallows the exception, and the whole load is lost:
the loader returns the empty list even though the dataset contains a fully
well-formed row, which the same loader happily returns when the partial row
is absent. -/
theorem c9_partial_row_counterexample :
    LS.loadLocations csvPartialRow = [] ∧
    (LS.loadLocations csvGoodOnly).map (fun r => r.city) = ["Boston".toList] :=
  ⟨by decide, by decide⟩

/-- Claim C9 (amended): every record the class-based loader returns has
non-NaN coordinates, and a full-width row with non-numeric coordinates is
excluded without aborting the load; but a row with fewer than four columns
aborts the entire load (the caught exception leaves the location list
empty), and the Papa-parse variant keeps any row whose five fields are
non-empty, numeric or not, so its records carry whatever coordinate strings
the file had. -/
theorem c9_loader_amended :
    (∀ csv : List Char,
      (LS.loadLocations csv).all (fun r => r.lat.isSome && r.lng.isSome) = true) ∧
    (∀ csv : List Char,
      (∃ line ∈ (splitOnChar '\n' (trimChars csv)).drop 1,
        (splitOnChar ',' line).length < 4) →
      LS.loadLocations csv = []) ∧
    (LS.loadLocations csvGoodAndMalformed).map (fun r => r.city) = ["Boston".toList] ∧
    (P000.loadLocations [papaRowBadLat]).map (fun r => r.lat) = ["abc".toList] ∧
    jsParseFloat "abc".toList = none := by
  refine ⟨?_, ?_, by decide, by decide, by decide⟩
  · intro csv
    rw [List.all_eq_true]
    intro r hr
    simp only [LS.loadLocations] at hr
    cases hE : LS.mapExcept LS.parseRow ((splitOnChar '\n' (trimChars csv)).drop 1) with
    | error e => rw [hE] at hr; cases hr
    | ok rows => rw [hE] at hr; exact (List.mem_filter.mp hr).2
  · rintro csv ⟨line, hline, hlen⟩
    have hnone : (splitOnChar ',' line).get? 3 = none :=
      List.get?_eq_none.mpr (by omega)
    have herr : LS.parseRow line = Except.error () := by
      simp only [LS.parseRow]
      rw [hnone]
    simp only [LS.loadLocations]
    rw [mapExcept_error_of_mem hline herr]

/-- Witness for C9: the concrete partial-row dataset satisfies the
fewer-than-four-columns hypothesis, and the loader returns the empty
list there. -/
theorem c9_loader_witness :
    (splitOnChar ',' "12345,40.7".toList).length < 4 ∧
    LS.loadLocations csvPartialRow = [] :=
  ⟨by decide,
   c9_loader_amended.2.1 csvPartialRow ⟨"12345,40.7".toList, by decide, by decide⟩⟩

/-- Claim C5 (confirmed): the conversions are exactly the claimed formulas
(Fahrenheit from Celsius, miles per hour from meters per second at the
factor 2.237), the claimed concrete values come out after rounding (20
degrees Celsius shows as 68 degrees Fahrenheit, 5 meters per second as 11
miles per hour), wind bearings are bucketed at 22.5 degrees with nearest
rounding (any bearing within half a bucket of the k-th multiple of 22.5
degrees gets the k-th compass label, half-up at the lower edge), and the
index wraps at 360 degrees back to the label N. -/
theorem c5_unit_conversions :
    (∀ c : ℚ, LS.celsiusToFahrenheit c = c * 9 / 5 + 32) ∧
    (∀ m : ℚ, LS.mpsToMph m = m * 2.237) ∧
    jsRound (LS.celsiusToFahrenheit 20) = 68 ∧
    jsRound (LS.mpsToMph 5) = 11 ∧
    LS.degreesToDirection 0 = "N" ∧
    LS.degreesToDirection 202.5 = "SSW" ∧
    LS.degreesToDirection 360 = "N" ∧
    (∀ (d : ℚ) (k : ℕ), k < 16 → 22.5 * k - 11.25 ≤ d → d < 22.5 * k + 11.25 →
      LS.degreesToDirection d = LS.directions.getD k "undefined") := by
  refine ⟨fun c => rfl, fun m => rfl, ?_, ?_, ?_, ?_, ?_, ?_⟩
  · norm_num [jsRound, LS.celsiusToFahrenheit]
  · norm_num [jsRound, LS.mpsToMph]
  · have h : jsRound ((0 : ℚ) / 22.5) = 0 := by norm_num [jsRound]
    simp only [LS.degreesToDirection, h]
    decide
  · have h : jsRound ((202.5 : ℚ) / 22.5) = 9 := by norm_num [jsRound]
    simp only [LS.degreesToDirection, h]
    decide
  · have h : jsRound ((360 : ℚ) / 22.5) = 16 := by norm_num [jsRound]
    simp only [LS.degreesToDirection, h]
    decide
  · intro d k hk h1 h2
    have hfloor : jsRound (d / 22.5) = (k : ℤ) := by
      unfold jsRound
      rw [Int.floor_eq_iff]
      constructor
      · have h3 : ((k : ℚ) - 1/2) * 22.5 ≤ d := by linarith
        have h4 : (k : ℚ) - 1/2 ≤ d / 22.5 := by
          rw [le_div_iff₀ (by norm_num : (0:ℚ) < 22.5)]
          exact h3
        push_cast
        linarith
      · have h3 : d < ((k : ℚ) + 1/2) * 22.5 := by linarith
        have h4 : d / 22.5 < (k : ℚ) + 1/2 := by
          rw [div_lt_iff₀ (by norm_num : (0:ℚ) < 22.5)]
          exact h3
        push_cast
        linarith
    simp only [LS.degreesToDirection, hfloor, tmod_sixteen k hk]
    simp [Int.toNat_natCast]

/-- Witness for C5 at the bearing 100 degrees (bucket 4, label E). -/
theorem c5_unit_conversions_witness :
    ((4 : ℕ) < 16 ∧ (22.5 : ℚ) * ((4 : ℕ) : ℚ) - 11.25 ≤ 100 ∧
      (100 : ℚ) < 22.5 * ((4 : ℕ) : ℚ) + 11.25) ∧
    LS.degreesToDirection 100 = LS.directions.getD 4 "undefined" :=
  ⟨⟨by norm_num, by norm_num, by norm_num⟩,
   c5_unit_conversions.2.2.2.2.2.2.2 100 4 (by norm_num) (by norm_num) (by norm_num)⟩

/-- Display state right after the loading message was shown. -/
def loadingUI : LS.CurrentConditionsUI :=
  { temp := "--°F", cond := "Loading weather data...",
    humidityLine := "", windLine := "" }

/-- An observation whose declared fields are all missing except the wind
direction, which is present with a null value. -/
def obsNullMissing : LS.RawObservation :=
  { temperature := none, textDescription := none, relativeHumidity := none,
    windSpeed := none, windDirection := some none }

/-- Observation used by the C6 witness: humidity present with a null value,
temperature present with a null value, everything else missing. -/
def obsW : LS.RawObservation :=
  { temperature := some none, textDescription := none,
    relativeHumidity := some none, windSpeed := none, windDirection := none }

/-- Claim C6 (counterexample): with every declared field missing except a
null-valued wind direction, the rendered section is not made of explicit
placeholders: the temperature and description keep whatever text was
already displayed (here the stale loading message), and the null wind
direction is coerced to 0 and rendered as the compass label N — a
misleading value, not a placeholder. -/
theorem c6_placeholder_counterexample :
    LS.updateCurrentConditions loadingUI obsNullMissing =
      { temp := "--°F", cond := "Loading weather data...",
        humidityLine := "Humidity: N/A", windLine := "Wind: N/A N" } := by
  have h0 : jsRound ((0 : ℚ) / 22.5) = 0 := by norm_num [jsRound]
  simp only [LS.updateCurrentConditions, LS.tempText, LS.condText, LS.humidityText,
    LS.windSpeedText, LS.windDirText, LS.degreesToDirection, obsNullMissing,
    loadingUI, Option.getD, h0]
  decide

/-- Claim C6 (amended): only the humidity and wind-speed fields degrade to
the placeholder N/A, and only when their field object is missing entirely; a
missing wind direction degrades to the empty string; a missing or
null-valued temperature, like a missing description, silently keeps the
previously displayed text; and a field object present with a null value is
coerced to zero (humidity 0%, wind 0 mph, direction N). -/
theorem c6_placeholder_amended (prev : String) (obs : LS.RawObservation) :
    (obs.relativeHumidity = none → LS.humidityText obs = "N/A") ∧
    (obs.relativeHumidity = some none → LS.humidityText obs = "0%") ∧
    (obs.windSpeed = none → LS.windSpeedText obs = "N/A") ∧
    (obs.windSpeed = some none → LS.windSpeedText obs = "0 mph") ∧
    (obs.windDirection = none → LS.windDirText obs = "") ∧
    (obs.windDirection = some none → LS.windDirText obs = "N") ∧
    (obs.temperature = none → LS.tempText prev obs = prev) ∧
    (obs.temperature = some none → LS.tempText prev obs = prev) ∧
    (obs.textDescription = none → LS.condText prev obs = prev) := by
  refine ⟨?_, ?_, ?_, ?_, ?_, ?_, ?_, ?_, ?_⟩
  · intro h; simp [LS.humidityText, h]
  · intro h
    have h5 : jsRound (0 : ℚ) = 0 := by norm_num [jsRound]
    simp only [LS.humidityText, h, Option.getD, h5]
    decide
  · intro h; simp [LS.windSpeedText, h]
  · intro h
    have h5 : jsRound (LS.mpsToMph 0) = 0 := by norm_num [jsRound, LS.mpsToMph]
    simp only [LS.windSpeedText, h, Option.getD, h5]
    decide
  · intro h; simp [LS.windDirText, h]
  · intro h
    have h0 : jsRound ((0 : ℚ) / 22.5) = 0 := by norm_num [jsRound]
    simp only [LS.windDirText, h, Option.getD, LS.degreesToDirection, h0]
    decide
  · intro h; simp [LS.tempText, h]
  · intro h; simp [LS.tempText, h]
  · intro h; simp [LS.condText, h]

/-- Witness for C6: the null-valued humidity renders as 0%, the missing
wind speed as N/A, the missing wind direction as the empty string, and the
null-valued temperature keeps the previous text. -/
theorem c6_placeholder_witness :
    (obsW.relativeHumidity = some none ∧ LS.humidityText obsW = "0%") ∧
    (obsW.windSpeed = none ∧ LS.windSpeedText obsW = "N/A") ∧
    (obsW.windDirection = none ∧ LS.windDirText obsW = "") ∧
    (obsW.temperature = some none ∧ LS.tempText "--°F" obsW = "--°F") :=
  ⟨⟨rfl, (c6_placeholder_amended "--°F" obsW).2.1 rfl⟩,
   ⟨rfl, (c6_placeholder_amended "--°F" obsW).2.2.1 rfl⟩,
   ⟨rfl, (c6_placeholder_amended "--°F" obsW).2.2.2.2.1 rfl⟩,
   ⟨rfl, (c6_placeholder_amended "--°F" obsW).2.2.2.2.2.2.2.1 rfl⟩⟩

/-- Alerts payload with two active alerts, used by the C10 witness. -/
def twoAlerts : LS.AlertsData :=
  { features :=
      [{ properties := { event := "Tornado Warning",
                         headline := "Tornado Warning until 5 PM" } },
       { properties := { event := "Flood Watch",
                         headline := "Flood Watch through Sunday" } }] }

/-- Claim C10 (confirmed): whenever the alerts feature list is non-empty,
the rendered alert content is exactly the event and headline of the first
feature, and it coincides with what a single-alert response would render —
alerts after the first never influence the output. -/
theorem c10_first_alert_only (d : LS.AlertsData) (f : LS.AlertFeature)
    (rest : List LS.AlertFeature) (h : d.features = f :: rest) :
    LS.updateAlertsUI (some d) =
      LS.alertHtml f.properties.event f.properties.headline ∧
    LS.updateAlertsUI (some d) = LS.updateAlertsUI (some { features := [f] }) := by
  constructor <;> simp [LS.updateAlertsUI, h]

/-- Witness for C10 at a concrete two-alert response. -/
theorem c10_first_alert_only_witness :
    twoAlerts.features =
      { properties := { event := "Tornado Warning",
                        headline := "Tornado Warning until 5 PM" } } ::
      [{ properties := { event := "Flood Watch",
                         headline := "Flood Watch through Sunday" } }] ∧
    LS.updateAlertsUI (some twoAlerts) =
      LS.alertHtml "Tornado Warning" "Tornado Warning until 5 PM" :=
  ⟨rfl, (c10_first_alert_only twoAlerts _ _ rfl).1⟩

/-- Network run in which stage 1 succeeds, the observation branch rejects
at its first hop, and the forecast and alerts branches both succeed. -/
def netObsFail : LS.NwsNet :=
  { point := Except.ok { observationStations := "stationsUrl", forecast := "forecastUrl" },
    stations := Except.error "network failure",
    latestObservation := fun _ => Except.ok "obs-payload",
    forecastResp := Except.ok "forecast-payload",
    alertsResp := Except.ok "alerts-payload" }

/-- Network run in which every request succeeds. -/
def netAllOk : LS.NwsNet :=
  { point := Except.ok { observationStations := "stationsUrl", forecast := "forecastUrl" },
    stations := Except.ok { features := ["station-1"] },
    latestObservation := fun _ => Except.ok "obs-payload",
    forecastResp := Except.ok "forecast-payload",
    alertsResp := Except.ok "alerts-payload" }

/-- Claim C2 (counterexample): with point metadata resolved, the
observation branch failing, and the forecast and alerts branches both
succeeding, the fetch lands in the catch block and reports the generic
failure — there is no degraded snapshot carrying the two healthy
sections, because the fail-fast combinator rejects the whole batch on the
first branch rejection. -/
theorem c2_branch_failure_counterexample :
    netObsFail.point =
      Except.ok { observationStations := "stationsUrl", forecast := "forecastUrl" } ∧
    LS.observationBranch netObsFail = Except.error "network failure" ∧
    netObsFail.forecastResp = Except.ok "forecast-payload" ∧
    netObsFail.alertsResp = Except.ok "alerts-payload" ∧
    LS.fetchWeatherData netObsFail = LS.FetchOutcome.failed LS.errorMessage :=
  ⟨rfl, rfl, rfl, rfl, rfl⟩

/-- Claim C2 (amended): after stage 1 succeeds, the snapshot is assembled
only when all three stage-2 branches succeed; a rejection of any single
branch (observation, forecast or alerts) fails the whole fetch with the one
generic error message, producing no partial snapshot and no per-section
unavailability marker. -/
theorem c2_branch_failure_amended (net : LS.NwsNet) (p : LS.PointData)
    (hp : net.point = Except.ok p) :
    (∀ c f a, LS.observationBranch net = Except.ok c →
      net.forecastResp = Except.ok f → net.alertsResp = Except.ok a →
      LS.fetchWeatherData net = LS.FetchOutcome.success c f a) ∧
    (∀ e, (LS.observationBranch net = Except.error e ∨
        net.forecastResp = Except.error e ∨
        net.alertsResp = Except.error e) →
      LS.fetchWeatherData net = LS.FetchOutcome.failed LS.errorMessage) := by
  constructor
  · intro c f a hc hf ha
    simp [LS.fetchWeatherData, hp, hc, hf, ha]
  · intro e he
    rcases hobs : LS.observationBranch net with e1 | c <;>
      rcases hfc : net.forecastResp with e2 | f <;>
      rcases hal : net.alertsResp with e3 | a <;>
      simp_all [LS.fetchWeatherData, hp]

/-- Witness for C2: on the all-success network run the snapshot carries all
three payloads. -/
theorem c2_branch_failure_witness :
    (netAllOk.point =
      Except.ok { observationStations := "stationsUrl", forecast := "forecastUrl" } ∧
     LS.observationBranch netAllOk = Except.ok "obs-payload" ∧
     netAllOk.forecastResp = Except.ok "forecast-payload" ∧
     netAllOk.alertsResp = Except.ok "alerts-payload") ∧
    LS.fetchWeatherData netAllOk =
      LS.FetchOutcome.success "obs-payload" "forecast-payload" "alerts-payload" :=
  ⟨⟨rfl, rfl, rfl, rfl⟩,
   (c2_branch_failure_amended netAllOk
      { observationStations := "stationsUrl", forecast := "forecastUrl" } rfl).1
     "obs-payload" "forecast-payload" "alerts-payload" rfl rfl rfl⟩

/-- Folding the display over a trace only remembers the last settle event,
whatever the starting state. -/
theorem runUi_foldl_aux (t : List UiEvent) (s : UiState) :
    (t.foldl stepUi s).displayed =
      t.foldl
        (fun acc e =>
          match e with
          | UiEvent.settle g => some g
          | UiEvent.select _ => acc)
        s.displayed := by
  induction t generalizing s with
  | nil => rfl
  | cons e rest ih =>
    simp only [List.foldl_cons]
    rw [ih]
    congr 1
    cases e <;> rfl

/-- Claim C1 (counterexample): in the trace where location 0 is selected,
then location 1 is selected, then the fetch of generation 1 settles, and
finally the slow fetch of generation 0 settles, the most recent selection
is 1 but the display ends up showing the data of generation 0 — the stale
result is applied, not discarded, because no generation token exists. -/
theorem c1_stale_counterexample :
    (runUi [UiEvent.select 0, UiEvent.select 1,
            UiEvent.settle 1, UiEvent.settle 0]).lastSelection = some 1 ∧
    (runUi [UiEvent.select 0, UiEvent.select 1,
            UiEvent.settle 1, UiEvent.settle 0]).displayed = some 0 ∧
    (runUi [UiEvent.select 0, UiEvent.select 1,
            UiEvent.settle 1, UiEvent.settle 0]).displayed ≠
      (runUi [UiEvent.select 0, UiEvent.select 1,
              UiEvent.settle 1, UiEvent.settle 0]).lastSelection :=
  ⟨rfl, rfl, by decide⟩

/-- Claim C1 (amended): fetch results are applied unconditionally in
settlement order, so after any trace the display shows the generation of
whichever fetch settled last; in particular, whenever an earlier selection
settles after a newer one (select A, select B, settle B, settle A, after
any prefix), the final display shows the data of the superseded selection
A, not of the most recent selection B. -/
theorem c1_stale_amended :
    (∀ t : List UiEvent, (runUi t).displayed = lastSettled t) ∧
    (∀ (pre : List UiEvent) (a b : ℕ),
      (runUi (pre ++ [UiEvent.select a, UiEvent.select b,
                      UiEvent.settle b, UiEvent.settle a])).displayed = some a) := by
  have hmain : ∀ t : List UiEvent, (runUi t).displayed = lastSettled t := by
    intro t
    unfold runUi lastSettled
    rw [runUi_foldl_aux]
  refine ⟨hmain, ?_⟩
  intro pre a b
  rw [hmain]
  unfold lastSettled
  rw [List.foldl_append]
  rfl
